import Mathlib

/-!
# Verification of the deteksi_insom insomnia-detection app core

Shallow embedding of the reproducible core of `app.py`:
the feature deriver `preprocess_input`, the rule-based scorer
`predict_insomnia_rule_based`, the recommendation-tier selection in
`display_results`, and the page-level control flow of `main`.

Numeric fields are modelled as `ℚ` (all Python values involved are exact
decimals; the tolerance of 1e-9 granted by the spec licenses the
exact-rational model).  The pandas behaviour "NaN from an unmapped
categorical" is modelled as `none : Option ℚ`.  Python exceptions are
modelled with `Except String`.  Python strings are processed as `List Char`
so that every string operation is structural.
-/

/-- Input record: the eleven raw fields captured from the user form
(the `form_home` dict built in `main`, app.py lines 530-542).  Numbers as
`ℚ`, the categorical/text fields as `String` exactly as the form supplies
them. -/
structure InputRecord where
  gender : String
  age : ℚ
  occupation : String
  sleepDuration : ℚ
  qualityOfSleep : ℚ
  physicalActivityLevel : ℚ
  stressLevel : ℚ
  bmiCategory : String
  bloodPressure : String
  heartRate : ℚ
  dailySteps : ℚ
deriving DecidableEq, Repr

/-- `df["Gender"].map({"Female": 0.0, "Male": 1.0})` (app.py line 74):
pandas `Series.map` sends any value outside the dict to NaN, modelled as
`none`. -/
def genderMap (g : String) : Option ℚ :=
  if g = "Female" then some 0.0
  else if g = "Male" then some 1.0
  else none

/-- `df["BMI Category"].map(bmi_mapping)` (app.py lines 77-84); unmapped
values become NaN (`none`), as with `genderMap`. -/
def bmiMap (b : String) : Option ℚ :=
  if b = "Normal" then some 0
  else if b = "Normal Weight" then some 0
  else if b = "Overweight" then some 1
  else if b = "Obese" then some 2
  else if b = "Underweight" then some 0
  else none

/-- Decimal value of a digit string, used by the float-literal model. -/
def digitsVal (l : List Char) : ℕ :=
  l.foldl (fun a c => 10 * a + (c.toNat - '0'.toNat)) 0

/-- Model of the Python builtin `float(s)` on finite decimal literals:
optional sign, then digits with an optional decimal point (at least one
digit overall), then an optional exponent part.  Whitespace trimming,
digit-group underscores and the `inf`/`nan` spellings accepted by CPython
are not modelled; no input considered in this development uses them. -/
def parseFloatChars (cs : List Char) : Option ℚ :=
  let (sgn, cs1) : ℚ × List Char :=
    match cs with
    | '+' :: t => (1, t)
    | '-' :: t => (-1, t)
    | t => (1, t)
  let (ip, cs2) := cs1.span Char.isDigit
  let (fp, cs3) :=
    match cs2 with
    | '.' :: t => t.span Char.isDigit
    | t => (([] : List Char), t)
  if ip = [] ∧ fp = [] then none
  else
    let mantissa : ℚ :=
      sgn * ((digitsVal ip : ℚ) + (digitsVal fp : ℚ) / (10 : ℚ) ^ fp.length)
    match cs3 with
    | [] => some mantissa
    | c :: t =>
        if c = 'e' ∨ c = 'E' then
          let (es, u) : ℤ × List Char :=
            match t with
            | '+' :: u => (1, u)
            | '-' :: u => (-1, u)
            | u => (1, u)
          let (ed, rest) := u.span Char.isDigit
          if ed = [] ∨ rest ≠ [] then none
          else some (mantissa * (10 : ℚ) ^ (es * (digitsVal ed : ℤ)))
        else none

/-- `float(s)` on a Python string, via `parseFloatChars`. -/
def parseFloat (s : String) : Option ℚ :=
  parseFloatChars s.toList

/-- Python `s.split("/")` on the character list of `s`: the maximal split at
every slash, keeping empty parts (so `"120/"` gives two parts and `"/"`
gives two empty parts), exactly as `str.split` with an explicit separator. -/
def splitOnSlash : List Char → List (List Char)
  | [] => [[]]
  | c :: t =>
      let r := splitOnSlash t
      if c = '/' then [] :: r
      else
        match r with
        | h :: t2 => (c :: h) :: t2
        | [] => [[c]]

/-- The training column order `expected_columns` (app.py lines 109-114). -/
def expected_columns : List String :=
  ["Gender", "Age", "Sleep Duration", "Quality of Sleep", "Physical Activity Level",
   "Stress Level", "BMI Category", "Heart Rate", "Daily Steps",
   "Systolic", "Diastolic", "Sleep_Efficiency", "Stress_Sleep_Interaction",
   "Activity_Efficiency", "Stress_Sleep_Ratio", "Sleep_Age_Ratio"]

/-- The one-row DataFrame built inside `preprocess_input` (app.py lines
71-106) after the blood-pressure split succeeded with values `sys`/`dia`,
as an association list in pandas column-insertion order.  The string-valued
"Occupation" column (never selected by `expected_columns`) and the dropped
"Blood Pressure" column are omitted from this numeric model. -/
def dfColumns (r : InputRecord) (sys dia : ℚ) : List (String × Option ℚ) :=
  [("Gender", genderMap r.gender),
   ("Age", some r.age),
   ("Sleep Duration", some r.sleepDuration),
   ("Quality of Sleep", some r.qualityOfSleep),
   ("Physical Activity Level", some r.physicalActivityLevel),
   ("Stress Level", some r.stressLevel),
   ("BMI Category", bmiMap r.bmiCategory),
   ("Heart Rate", some r.heartRate),
   ("Daily Steps", some r.dailySteps),
   ("Systolic", some sys),
   ("Diastolic", some dia),
   ("Sleep_Efficiency", some (r.sleepDuration / 24)),
   ("Stress_Sleep_Interaction", some (r.stressLevel * r.qualityOfSleep)),
   ("Activity_Efficiency", some (r.dailySteps / (r.physicalActivityLevel + 1))),
   ("Stress_Sleep_Ratio", some (r.stressLevel / (r.qualityOfSleep + 1))),
   ("Sleep_Age_Ratio", some (r.sleepDuration / (r.age + 1)))]

/-- `preprocess_input` (app.py lines 68-116).  Python control flow:
`if not bp_value or "/" not in bp_value: raise ValueError`, then
`bp_split = bp_value.split("/")` and `float(bp_split[0])`,
`float(bp_split[1])` with a `try`/`except` re-raising `ValueError`; on
success the derived columns are added and `df[expected_columns]` selects
the 16 columns in training order.  All 16 selected columns are present, so
the column lookup never fails. -/
def preprocess_input (r : InputRecord) : Except String (List (Option ℚ)) :=
  let bp := r.bloodPressure.toList
  if bp.isEmpty || !(bp.contains '/') then
    .error "Input tekanan darah tidak valid"
  else
    let parts := splitOnSlash bp
    match parseFloatChars (parts.getD 0 []), parseFloatChars (parts.getD 1 []) with
    | some sys, some dia =>
        .ok (expected_columns.map fun c => ((dfColumns r sys dia).lookup c).getD none)
    | _, _ => .error "Input tekanan darah tidak valid"

/-- `True` exactly on the `.ok` results of `preprocess_input`, i.e. the
runs of app.py `preprocess_input` that do not raise. -/
def exceptIsOk : Except String (List (Option ℚ)) → Bool
  | .ok _ => true
  | .error _ => false

/-- The first column of a successful `preprocess_input` result (the
GenderCode position). -/
def firstEntry : Except String (List (Option ℚ)) → Option (Option ℚ)
  | .ok (x :: _) => some x
  | _ => none

/-- The raise-condition of `preprocess_input` as implemented (app.py lines
87-98): empty blood-pressure string, or no "/" at all, or one of the first
two "/"-separated parts not accepted by `float`. -/
def bpRaises (bp : String) : Bool :=
  bp.toList.isEmpty ||
  !(bp.toList.contains '/') ||
  !(parseFloatChars ((splitOnSlash bp.toList).getD 0 [])).isSome ||
  !(parseFloatChars ((splitOnSlash bp.toList).getD 1 [])).isSome

/-- The raise-condition as the spec words it: missing string, or not
exactly one "/", or either substring around the "/" not parsing as a
float.  Stated from the spec for comparison with `bpRaises`. -/
def claimedBPRaises (bp : String) : Bool :=
  bp.toList.isEmpty ||
  !(bp.toList.count '/' == 1) ||
  !(parseFloatChars ((splitOnSlash bp.toList).getD 0 [])).isSome ||
  !(parseFloatChars ((splitOnSlash bp.toList).getD 1 [])).isSome

/-- The rule-based scorer `predict_insomnia_rule_based` (app.py lines
167-203), verbatim: an integer score accumulated by five conditions on the
raw input dict, then the if/elif chain mapping the score to
`(prediction, [pNormal, pInsomnia])`.  Prediction `1` = Insomnia,
`0` = Normal. -/
def predict_insomnia_rule_based (r : InputRecord) : ℕ × (ℚ × ℚ) :=
  let score : ℕ := 0
  let score := if r.sleepDuration < 6 then score + 2 else score
  let score := if r.qualityOfSleep < 5 then score + 2 else score
  let score := if r.stressLevel > 7 then score + 2 else score
  let score := if r.physicalActivityLevel < 4 then score + 1 else score
  let score := if r.bmiCategory = "Obese" then score + 1 else score
  if score ≥ 6 then (1, (0.1, 0.9))
  else if score = 5 then (1, (0.25, 0.75))
  else if score = 4 then (1, (0.4, 0.6))
  else if score = 3 then (1, (0.55, 0.45))
  else if score = 2 then (0, (0.7, 0.3))
  else if score = 1 then (0, (0.8, 0.2))
  else (0, (0.9, 0.1))

/-- The score-accumulation half of `predict_insomnia_rule_based` in
isolation (app.py lines 169-180). -/
def ruleScore (r : InputRecord) : ℕ :=
  let score : ℕ := 0
  let score := if r.sleepDuration < 6 then score + 2 else score
  let score := if r.qualityOfSleep < 5 then score + 2 else score
  let score := if r.stressLevel > 7 then score + 2 else score
  let score := if r.physicalActivityLevel < 4 then score + 1 else score
  let score := if r.bmiCategory = "Obese" then score + 1 else score
  score

/-- The score-to-result if/elif chain of `predict_insomnia_rule_based` in
isolation (app.py lines 181-203). -/
def scoreToResult (score : ℕ) : ℕ × (ℚ × ℚ) :=
  if score ≥ 6 then (1, (0.1, 0.9))
  else if score = 5 then (1, (0.25, 0.75))
  else if score = 4 then (1, (0.4, 0.6))
  else if score = 3 then (1, (0.55, 0.45))
  else if score = 2 then (0, (0.7, 0.3))
  else if score = 1 then (0, (0.8, 0.2))
  else (0, (0.9, 0.1))

/-- The i-th of the five triggering conditions of the rule-based score,
in source order (app.py lines 171-179); `false` past index 4. -/
def conds (r : InputRecord) (i : ℕ) : Bool :=
  if i = 0 then decide (r.sleepDuration < 6)
  else if i = 1 then decide (r.qualityOfSleep < 5)
  else if i = 2 then decide (r.stressLevel > 7)
  else if i = 3 then decide (r.physicalActivityLevel < 4)
  else if i = 4 then decide (r.bmiCategory = "Obese")
  else false

/-- The weight added for the i-th triggering condition (app.py lines
171-179): 2 for the first three conditions, 1 for the last two. -/
def condWeight (i : ℕ) : ℕ :=
  if i < 3 then 2 else if i < 5 then 1 else 0

/-- The six advice tiers of `display_results` (app.py lines 229-309) plus
the fall-through branch for an unrecognised prediction (line 312). -/
inductive AdviceTier where
  | highRisk | moderate | lowMonitor | excellent | good | fair | unrecognized
deriving DecidableEq, Repr

/-- The tier selection of `display_results` (app.py lines 205-312): the
Insomnia branch compares `prediction_proba[1] * 100` against 80 and 60, the
Normal branch compares `prediction_proba[0] * 100` against 90 and 70; any
other prediction value reaches the "Hasil prediksi tidak dikenali" branch. -/
def display_results_tier (prediction : ℕ) (prediction_proba : ℚ × ℚ) : AdviceTier :=
  if prediction = 1 then
    let insomnia_prob := prediction_proba.2 * 100
    if insomnia_prob ≥ 80 then .highRisk
    else if insomnia_prob ≥ 60 then .moderate
    else .lowMonitor
  else if prediction = 0 then
    let normal_prob := prediction_proba.1 * 100
    if normal_prob ≥ 90 then .excellent
    else if normal_prob ≥ 70 then .good
    else .fair
  else .unrecognized

/-- The sidebar pages of `main` (app.py lines 396-418 and 421-636). -/
inductive Page where
  | home | result | info | credit
deriving DecidableEq, Repr

/-- What `main` renders on one run (app.py lines 358-636), abstracted to
the outcomes that matter for the artifact-failure claim. -/
inductive MainOutcome where
  | landing
  | modelLoadError
  | homePage
  | resultShown (res : ℕ × (ℚ × ℚ))
  | resultNoData
  | infoPage
  | creditPage
deriving DecidableEq, Repr

/-- The control flow of `main` (app.py lines 358-556) over one script run.
`model` is the result of `load_model` (app.py lines 58-66: `none` when
`joblib.load` raised and the error was reported).  Before the start button
is pressed only the landing view shows (lines 366-383); then `main` loads
the model and returns with an error message if it is `None` (lines
389-393); only past that guard are the sidebar pages rendered, and the
result page computes its result with `predict_insomnia_rule_based` on the
stored input, ignoring the loaded model (lines 546-553).  The artifact is
typed as an arbitrary `α` because the result path never applies it. -/
def main_view {α : Type} (model : Option α) (started : Bool)
    (page : Page) (inputData : Option InputRecord) : MainOutcome :=
  if !started then .landing
  else
    match model with
    | none => .modelLoadError
    | some _ =>
        match page with
        | .home => .homePage
        | .result =>
            match inputData with
            | some d => .resultShown (predict_insomnia_rule_based d)
            | none => .resultNoData
        | .info => .infoPage
        | .credit => .creditPage

/-- `true` exactly when a `main` run rendered a rule-based Risk Result. -/
def isResultShown : MainOutcome → Bool
  | .resultShown _ => true
  | _ => false

/-- Scenario A of the spec: SleepDuration=5, QualityOfSleep=4,
StressLevel=8, PhysicalActivityLevel=3, BMICategory=Obese, all else valid
defaults. -/
def scenarioA : InputRecord :=
  { gender := "Female", age := 30, occupation := "Engineer",
    sleepDuration := 5, qualityOfSleep := 4, physicalActivityLevel := 3,
    stressLevel := 8, bmiCategory := "Obese", bloodPressure := "120/80",
    heartRate := 80, dailySteps := 8000 }

/-- Scenario B of the spec (also the record of `test_prediction.py`):
SleepDuration=7, QualityOfSleep=7, StressLevel=5, PhysicalActivityLevel=5,
DailySteps=8000, Age=30, BMICategory=Normal. -/
def scenarioB : InputRecord :=
  { gender := "Female", age := 30, occupation := "Engineer",
    sleepDuration := 7, qualityOfSleep := 7, physicalActivityLevel := 5,
    stressLevel := 5, bmiCategory := "Normal", bloodPressure := "120/80",
    heartRate := 80, dailySteps := 8000 }

/-- Scenario B with a blood-pressure string holding two slashes. -/
def recMultiSlash : InputRecord :=
  { scenarioB with bloodPressure := "120/80/90" }

/-- Scenario B with the Gender value the form actually supplies. -/
def recPerempuan : InputRecord :=
  { scenarioB with gender := "Perempuan" }

/-- Scenario B with the Obese BMI category (one more condition true). -/
def recObeseB : InputRecord :=
  { scenarioB with bmiCategory := "Obese" }

/-- Scenario B with only the free-text occupation changed. -/
def recOccupationB : InputRecord :=
  { scenarioB with occupation := "Guru" }


/-- The scorer literally is the composition of its two halves. -/
theorem predict_eq_scoreToResult (r : InputRecord) :
    predict_insomnia_rule_based r = scoreToResult (ruleScore r) := rfl

/-- `float("120")` in the model. -/
theorem parseFloatChars_120 : parseFloatChars ['1', '2', '0'] = some 120 := by
  rw [show parseFloatChars ['1', '2', '0'] =
      some (1 * ((digitsVal ['1', '2', '0'] : ℚ) +
        (digitsVal ([] : List Char) : ℚ) / (10 : ℚ) ^ ([] : List Char).length)) from rfl]
  norm_num [show digitsVal ['1', '2', '0'] = 120 from rfl,
    show digitsVal ([] : List Char) = 0 from rfl]

/-- `float("80")` in the model. -/
theorem parseFloatChars_80 : parseFloatChars ['8', '0'] = some 80 := by
  rw [show parseFloatChars ['8', '0'] =
      some (1 * ((digitsVal ['8', '0'] : ℚ) +
        (digitsVal ([] : List Char) : ℚ) / (10 : ℚ) ^ ([] : List Char).length)) from rfl]
  norm_num [show digitsVal ['8', '0'] = 80 from rfl,
    show digitsVal ([] : List Char) = 0 from rfl]

/-- C1: the Rule-Based Scorer maps its accumulated integer score to
(label, pNormal, pInsomnia) exactly per the fixed table — score 0 to
(Normal, 0.90, 0.10), 1 to (Normal, 0.80, 0.20), 2 to (Normal, 0.70,
0.30), 3 to (Insomnia, 0.55, 0.45), 4 to (Insomnia, 0.40, 0.60), 5 to
(Insomnia, 0.25, 0.75), and every score at least 6 to (Insomnia, 0.10,
0.90); the label is Insomnia (1) iff the score is at least 3, and the
scorer applies exactly this table to the accumulated score of every input
record. -/
theorem c1_score_table :
    scoreToResult 0 = (0, (0.9, 0.1)) ∧
    scoreToResult 1 = (0, (0.8, 0.2)) ∧
    scoreToResult 2 = (0, (0.7, 0.3)) ∧
    scoreToResult 3 = (1, (0.55, 0.45)) ∧
    scoreToResult 4 = (1, (0.4, 0.6)) ∧
    scoreToResult 5 = (1, (0.25, 0.75)) ∧
    (∀ k : ℕ, scoreToResult (6 + k) = (1, (0.1, 0.9))) ∧
    (∀ s : ℕ, ((scoreToResult s).1 = 1 ↔ 3 ≤ s)) ∧
    (∀ r : InputRecord, predict_insomnia_rule_based r = scoreToResult (ruleScore r)) := by
  refine ⟨rfl, rfl, rfl, rfl, rfl, rfl, ?_, ?_, fun _ => rfl⟩
  · intro k
    unfold scoreToResult
    rw [if_pos (by omega : 6 + k ≥ 6)]
  · intro s
    by_cases h6 : s ≥ 6
    · unfold scoreToResult
      rw [if_pos h6]
      simpa using by omega
    · have hlt : s < 6 := by omega
      interval_cases s <;> decide

/-- C2: the rule-based score starts at 0 and is exactly the sum of +2 if
SleepDuration < 6, +2 if QualityOfSleep < 5, +2 if StressLevel > 7, +1 if
PhysicalActivityLevel < 4 and +1 if BMICategory = "Obese" — an expression
in those five fields only; Scenario A scores 8 and yields
(Insomnia, 0.10, 0.90). -/
theorem c2_score_sum :
    (∀ r : InputRecord, ruleScore r =
      (if r.sleepDuration < 6 then 2 else 0) +
      (if r.qualityOfSleep < 5 then 2 else 0) +
      (if r.stressLevel > 7 then 2 else 0) +
      (if r.physicalActivityLevel < 4 then 1 else 0) +
      (if r.bmiCategory = "Obese" then 1 else 0)) ∧
    ruleScore scenarioA = 8 ∧
    predict_insomnia_rule_based scenarioA = (1, (0.1, 0.9)) := by
  refine ⟨?_, by decide, rfl⟩
  intro r
  unfold ruleScore
  split_ifs <;> rfl

/-- C7: for every input record the probability pair returned by the
Rule-Based Scorer sums to exactly 1 (hence certainly within 1e-9). -/
theorem c7_proba_sum (r : InputRecord) :
    (predict_insomnia_rule_based r).2.1 + (predict_insomnia_rule_based r).2.2 = 1 := by
  rw [predict_eq_scoreToResult]
  generalize ruleScore r = s
  by_cases h6 : s ≥ 6
  · unfold scoreToResult
    rw [if_pos h6]
    norm_num
  · have hlt : s < 6 := by omega
    interval_cases s <;> norm_num [scoreToResult]

/-- C9: the Rule-Based Scorer is a pure function of the record content;
two records that agree on the five fields the scorer reads produce
identical (prediction, probability-pair) results, so repeated calls on
the same record are identical and no other state affects the outcome. -/
theorem c9_deterministic (r r2 : InputRecord)
    (h1 : r.sleepDuration = r2.sleepDuration)
    (h2 : r.qualityOfSleep = r2.qualityOfSleep)
    (h3 : r.stressLevel = r2.stressLevel)
    (h4 : r.physicalActivityLevel = r2.physicalActivityLevel)
    (h5 : r.bmiCategory = r2.bmiCategory) :
    predict_insomnia_rule_based r = predict_insomnia_rule_based r2 := by
  unfold predict_insomnia_rule_based
  rw [h1, h2, h3, h4, h5]

/-- Witness for C9: Scenario B and its copy with a different free-text
occupation give identical results. -/
theorem c9_deterministic_witness :
    predict_insomnia_rule_based scenarioB = predict_insomnia_rule_based recOccupationB :=
  c9_deterministic scenarioB recOccupationB rfl rfl rfl rfl rfl

/-- The rule-based score as the weighted sum of its five conditions. -/
theorem ruleScore_eq_conds (r : InputRecord) :
    ruleScore r =
      (if conds r 0 then condWeight 0 else 0) + (if conds r 1 then condWeight 1 else 0) +
      (if conds r 2 then condWeight 2 else 0) + (if conds r 3 then condWeight 3 else 0) +
      (if conds r 4 then condWeight 4 else 0) := by
  simp only [ruleScore, conds, condWeight, decide_eq_true_eq]
  norm_num
  split_ifs <;> rfl

/-- C8: the rule-based score is monotonic — if a record changes so that
one of the five triggering conditions turns from false to true while the
other four keep their truth values, the total score never decreases. -/
theorem c8_monotone (r r2 : InputRecord) (i : ℕ) (hi : i < 5)
    (hbefore : conds r i = false) (hafter : conds r2 i = true)
    (hother : ∀ j, j < 5 → j ≠ i → conds r2 j = conds r j) :
    ruleScore r ≤ ruleScore r2 := by
  have key : ∀ j, j < 5 →
      (if conds r j then condWeight j else 0) ≤ (if conds r2 j then condWeight j else 0) := by
    intro j hj
    by_cases hji : j = i
    · subst hji
      rw [hbefore, hafter]
      simp
    · rw [hother j hj hji]
  rw [ruleScore_eq_conds r, ruleScore_eq_conds r2]
  exact add_le_add (add_le_add (add_le_add (add_le_add
    (key 0 (by omega)) (key 1 (by omega))) (key 2 (by omega))) (key 3 (by omega)))
    (key 4 (by omega))

/-- Witness for C8: turning on the Obese condition (index 4) on top of
Scenario B does not decrease the score. -/
theorem c8_monotone_witness : ruleScore scenarioB ≤ ruleScore recObeseB :=
  c8_monotone scenarioB recObeseB 4 (by decide) (by decide) (by decide) (by decide)

/-- C3 counterexample: "120/80/90" does not contain exactly one "/", so
the claim predicts a ValidationError, but `preprocess_input` accepts it —
the code only requires at least one "/" and parses the first two parts. -/
theorem c3_counterexample :
    recMultiSlash.bloodPressure = "120/80/90" ∧
    claimedBPRaises "120/80/90" = true ∧
    exceptIsOk (preprocess_input recMultiSlash) = true :=
  ⟨rfl, by decide, by decide⟩

/-- C3 (amended): `preprocess_input` raises exactly when the BloodPressure
string is empty, contains no "/" at all, or one of the first two
"/"-separated substrings fails to parse as a float; extra slashes beyond
the first two parts are accepted silently. -/
theorem c3_raise_condition :
    (∀ r : InputRecord, exceptIsOk (preprocess_input r) = !(bpRaises r.bloodPressure)) ∧
    bpRaises "abc/80" = true ∧ bpRaises "120" = true := by
  refine ⟨?_, by decide, by decide⟩
  intro r
  unfold preprocess_input bpRaises
  dsimp only
  cases hE : r.bloodPressure.toList.isEmpty with
  | true => rfl
  | false =>
      cases hC : r.bloodPressure.toList.contains '/' with
      | false => rfl
      | true =>
          cases hp0 : parseFloatChars ((splitOnSlash r.bloodPressure.toList).getD 0 []) with
          | none => rfl
          | some q0 =>
              cases hp1 : parseFloatChars ((splitOnSlash r.bloodPressure.toList).getD 1 []) with
              | none => rfl
              | some q1 => rfl

/-- Successful runs of `preprocess_input` produce exactly the 16 columns
of the training order, with the five derived features computed from the
raw fields. -/
theorem preprocess_input_eq (r : InputRecord) (sys dia : ℚ)
    (hne : r.bloodPressure.toList.isEmpty = false)
    (hsl : r.bloodPressure.toList.contains '/' = true)
    (h0 : parseFloatChars ((splitOnSlash r.bloodPressure.toList).getD 0 []) = some sys)
    (h1 : parseFloatChars ((splitOnSlash r.bloodPressure.toList).getD 1 []) = some dia) :
    preprocess_input r = .ok
      [genderMap r.gender, some r.age, some r.sleepDuration, some r.qualityOfSleep,
       some r.physicalActivityLevel, some r.stressLevel, bmiMap r.bmiCategory,
       some r.heartRate, some r.dailySteps, some sys, some dia,
       some (r.sleepDuration / 24), some (r.stressLevel * r.qualityOfSleep),
       some (r.dailySteps / (r.physicalActivityLevel + 1)),
       some (r.stressLevel / (r.qualityOfSleep + 1)),
       some (r.sleepDuration / (r.age + 1))] := by
  unfold preprocess_input
  dsimp only
  rw [hne, hsl, h0, h1]
  rfl

/-- C4: for every input record whose blood pressure validates, the Feature
Deriver returns the 16-column vector in exactly the fixed training order —
GenderCode, Age, SleepDuration, QualityOfSleep, PhysicalActivityLevel,
StressLevel, BMICode, HeartRate, DailySteps, Systolic, Diastolic, then
SleepDuration/24, StressLevel*QualityOfSleep,
DailySteps/(PhysicalActivityLevel+1), StressLevel/(QualityOfSleep+1),
SleepDuration/(Age+1) — and on Scenario B the derived values are 7/24, 35,
8000/6 = 4000/3, 5/8 and 7/31. -/
theorem c4_feature_vector (r : InputRecord) (sys dia : ℚ)
    (hne : r.bloodPressure.toList.isEmpty = false)
    (hsl : r.bloodPressure.toList.contains '/' = true)
    (h0 : parseFloatChars ((splitOnSlash r.bloodPressure.toList).getD 0 []) = some sys)
    (h1 : parseFloatChars ((splitOnSlash r.bloodPressure.toList).getD 1 []) = some dia) :
    preprocess_input r = .ok
      [genderMap r.gender, some r.age, some r.sleepDuration, some r.qualityOfSleep,
       some r.physicalActivityLevel, some r.stressLevel, bmiMap r.bmiCategory,
       some r.heartRate, some r.dailySteps, some sys, some dia,
       some (r.sleepDuration / 24), some (r.stressLevel * r.qualityOfSleep),
       some (r.dailySteps / (r.physicalActivityLevel + 1)),
       some (r.stressLevel / (r.qualityOfSleep + 1)),
       some (r.sleepDuration / (r.age + 1))] ∧
    genderMap "Female" = some 0 ∧ genderMap "Male" = some 1 ∧
    bmiMap "Normal" = some 0 ∧ bmiMap "Normal Weight" = some 0 ∧
    bmiMap "Underweight" = some 0 ∧ bmiMap "Overweight" = some 1 ∧
    bmiMap "Obese" = some 2 ∧
    preprocess_input scenarioB = .ok
      [some 0, some 30, some 7, some 7, some 5, some 5, some 0, some 80, some 8000,
       some 120, some 80, some (7 / 24), some 35, some (4000 / 3), some (5 / 8),
       some (7 / 31)] := by
  refine ⟨preprocess_input_eq r sys dia hne hsl h0 h1,
    by rw [show genderMap "Female" = some 0.0 from rfl]; norm_num,
    by rw [show genderMap "Male" = some 1.0 from rfl]; norm_num,
    rfl, rfl, rfl, rfl, rfl, ?_⟩
  rw [preprocess_input_eq scenarioB 120 80 rfl rfl (by exact parseFloatChars_120)
    (by exact parseFloatChars_80)]
  norm_num [genderMap, bmiMap, scenarioB]

/-- Witness for C4: the theorem applied to Scenario B, whose blood
pressure "120/80" parses as (120, 80). -/
theorem c4_feature_vector_witness :
    preprocess_input scenarioB = .ok
      [some 0, some 30, some 7, some 7, some 5, some 5, some 0, some 80, some 8000,
       some 120, some 80, some (7 / 24), some 35, some (4000 / 3), some (5 / 8),
       some (7 / 31)] :=
  (c4_feature_vector scenarioB 120 80 rfl rfl (by exact parseFloatChars_120)
    (by exact parseFloatChars_80)).2.2.2.2.2.2.2.2

/-- C10: when Gender is any string other than "Female" or "Male" —
including "Perempuan" and "Laki-laki", the values the form actually
supplies — `preprocess_input` does not raise (given a valid blood
pressure): it returns a vector whose GenderCode entry is the missing/NaN
value instead of a 0/1 encoding. -/
theorem c10_unknown_gender (r : InputRecord) (sys dia : ℚ)
    (hne : r.bloodPressure.toList.isEmpty = false)
    (hsl : r.bloodPressure.toList.contains '/' = true)
    (h0 : parseFloatChars ((splitOnSlash r.bloodPressure.toList).getD 0 []) = some sys)
    (h1 : parseFloatChars ((splitOnSlash r.bloodPressure.toList).getD 1 []) = some dia)
    (hg1 : r.gender ≠ "Female") (hg2 : r.gender ≠ "Male") :
    exceptIsOk (preprocess_input r) = true ∧
    firstEntry (preprocess_input r) = some none ∧
    genderMap "Perempuan" = none ∧ genderMap "Laki-laki" = none := by
  have he := preprocess_input_eq r sys dia hne hsl h0 h1
  refine ⟨by rw [he]; rfl, ?_, rfl, rfl⟩
  rw [he]
  show some (genderMap r.gender) = some none
  rw [genderMap, if_neg hg1, if_neg hg2]

/-- Witness for C10: Scenario B with Gender "Perempuan" is accepted and
gets a missing GenderCode. -/
theorem c10_unknown_gender_witness :
    exceptIsOk (preprocess_input recPerempuan) = true ∧
    firstEntry (preprocess_input recPerempuan) = some none ∧
    genderMap "Perempuan" = none ∧ genderMap "Laki-laki" = none :=
  c10_unknown_gender recPerempuan 120 80 rfl rfl (by exact parseFloatChars_120)
    (by exact parseFloatChars_80) (by decide) (by decide)

/-- C5: the advice tier is chosen from the probability of the predicted
class — for an Insomnia prediction the tiers cut at pInsomnia 0.80 and
0.60, for a Normal prediction at pNormal 0.90 and 0.70, exactly as the
percentage comparisons in `display_results` implement them. -/
theorem c5_tier_selection (p : ℚ × ℚ) :
    (display_results_tier 1 p =
      if p.2 ≥ 0.80 then .highRisk else if p.2 ≥ 0.60 then .moderate else .lowMonitor) ∧
    (display_results_tier 0 p =
      if p.1 ≥ 0.90 then .excellent else if p.1 ≥ 0.70 then .good else .fair) := by
  constructor <;>
  · unfold display_results_tier
    norm_num
    split_ifs <;> first | rfl | linarith

/-- C6 counterexample: with the artifact failed to load (`none`), a run of
`main` on the result page with a stored valid submission renders the fatal
"model cannot be loaded" error and returns — no rule-based Risk Result is
produced, contradicting the claim that artifact failure never blocks the
rule-based path. -/
theorem c6_counterexample :
    main_view (none : Option Unit) true Page.result (some scenarioB) =
      MainOutcome.modelLoadError ∧
    isResultShown (main_view (none : Option Unit) true Page.result (some scenarioB)) =
      false :=
  ⟨rfl, rfl⟩

/-- C6 (amended): when the classifier artifact fails to load, `load_model`
reports the error as a caught, non-crashing condition, but `main` then
returns before rendering any page, so no Risk Result is produced at all —
artifact failure blocks the rule-based path too; when the artifact does
load, the rendered result is computed by the Rule-Based Scorer alone and
is independent of which artifact value was loaded. -/
theorem c6_artifact_failure (α : Type) (m m2 : α) (s : Bool) (page : Page)
    (d : Option InputRecord) (rec : InputRecord) :
    main_view (none : Option α) true page d = MainOutcome.modelLoadError ∧
    main_view (some m) s page d = main_view (some m2) s page d ∧
    main_view (some m) true Page.result (some rec) =
      MainOutcome.resultShown (predict_insomnia_rule_based rec) := by
  refine ⟨rfl, ?_, rfl⟩
  cases s <;> rfl
